import Mathlib

/-!
Verification of the WikiScrolls backend core: a shallow embedding of the
interaction store and counter ledger (`src/services/interaction.service.ts`,
`src/services/article.service.ts`), the feed materializer
(`src/services/feed.service.ts` with the request validators in
`src/validations/feed.validation.ts`), the Wikipedia upsert path
(`ArticleService.upsertFromWikipedia`) and the audio regeneration effect
sequence (`ArticleService.regenerateAudio` together with
`TTSService.generateAudioSummary`).

The storage layer is modelled as an explicit record of rows.  The unique
index `UserInteraction_userId_articleId_interactionType_key` from
`prisma/migrations/20251103040418_update_schema_with_full_models/migration.sql`
is part of the embedding: an insert that would duplicate the
(userId, articleId, interactionType) key fails with the Prisma P2002 error,
which the express error handler translates to HTTP 409.  Rows are kept in
creation order, so `orderBy createdAt desc` is list reversal.
-/

deriving instance DecidableEq for Except

/-- Interaction kinds (`InteractionType` in `src/types`). -/
inductive InteractionType
  | VIEW
  | LIKE
  | SAVE
  deriving DecidableEq

/-- The error taxonomy of `src/utils/errors.ts` plus the two Prisma errors
that the error-handler middleware translates itself: P2002 (unique
constraint violation, mapped to 409) and P2025 (record not found on
update/delete, mapped to 404). -/
inductive ApiErr
  | notFound (msg : String)
  | badRequest (msg : String)
  | forbidden (msg : String)
  | conflict (msg : String)
  | uniqueViolation
  | recordMissing
  deriving DecidableEq

/-- HTTP status attached to each error by `src/utils/errors.ts` and by the
Prisma branches of `src/middleware/errorHandler.ts`. -/
def statusOf : ApiErr → Nat
  | .notFound _ => 404
  | .badRequest _ => 400
  | .forbidden _ => 403
  | .conflict _ => 409
  | .uniqueViolation => 409
  | .recordMissing => 404

/-- The `Article` row (Prisma model `Article` in the migration). -/
structure Article where
  id : String
  wikipediaId : Option String
  title : String
  wikipediaUrl : String
  content : Option String
  aiSummary : Option String
  audioUrl : Option String
  imageUrl : Option String
  tags : List String
  isActive : Bool
  isProcessed : Bool
  viewCount : Int
  likeCount : Int
  saveCount : Int
  categoryId : Option String
  deriving DecidableEq

/-- The `UserInteraction` row.  `createdAt` is represented by position in the
interaction list (rows are appended in creation order). -/
structure UserInteraction where
  userId : String
  articleId : String
  interactionType : InteractionType
  deriving DecidableEq

/-- The `Feed` row (`userId` unique, `articleIds` ordered, `currentPosition`
integer cursor). -/
structure Feed where
  userId : String
  articleIds : List String
  currentPosition : Int
  deriving DecidableEq

/-- The storage state: the tables the verified operations touch, a fresh-id
source for newly created rows, and the log of items pushed to the Gorse
recommender by `upsertFromWikipedia`. -/
structure DB where
  users : List String
  articles : List Article
  interactions : List UserInteraction
  feeds : List Feed
  nextId : Nat
  gorseItems : List (String × String)
  deriving DecidableEq

/-- Match on the compound unique key of `UserInteraction`. -/
def keyEq (userId articleId : String) (t : InteractionType)
    (r : UserInteraction) : Bool :=
  r.userId = userId && r.articleId = articleId && r.interactionType = t

/-- `prisma.userInteraction.findUnique` on the compound key. -/
def findInteraction (db : DB) (userId articleId : String)
    (t : InteractionType) : Option UserInteraction :=
  db.interactions.find? (keyEq userId articleId t)

/-- `prisma.article.findUnique({ where: { id } })`. -/
def findArticle (db : DB) (id : String) : Option Article :=
  db.articles.find? (fun art => art.id = id)

/-- `prisma.article.update({ where: { id }, data })` applied to the table. -/
def updateWhereId (articles : List Article) (id : String)
    (f : Article → Article) : List Article :=
  articles.map (fun art => if art.id = id then f art else art)

/-- The counter increment spread into the update data of
`InteractionService.createInteraction`. -/
def bumpCounts (t : InteractionType) (art : Article) : Article :=
  match t with
  | .VIEW => { art with viewCount := art.viewCount + 1 }
  | .LIKE => { art with likeCount := art.likeCount + 1 }
  | .SAVE => { art with saveCount := art.saveCount + 1 }

/-- The counter decrement spread into the update data of
`InteractionService.deleteInteraction`; no field is spread for VIEW. -/
def dropCounts (t : InteractionType) (art : Article) : Article :=
  match t with
  | .VIEW => art
  | .LIKE => { art with likeCount := art.likeCount - 1 }
  | .SAVE => { art with saveCount := art.saveCount - 1 }

/-- `interactionType.toLowerCase()` as used in the duplicate message. -/
def lowerName : InteractionType → String
  | .VIEW => "view"
  | .LIKE => "like"
  | .SAVE => "save"

/-- `InteractionService.createInteraction`: verify the article exists (else
NotFound); for non-VIEW kinds, pre-check the compound key and fail with
`BadRequestError` when a row exists; then, in one transaction, insert the
row and increment the matching counter.  The insert itself is subject to
the unique index, so a duplicate key that survived the pre-check (only
possible for VIEW, whose duplicates are not pre-checked) raises P2002. -/
def createInteraction (db : DB) (userId articleId : String)
    (interactionType : InteractionType) :
    Except ApiErr (DB × UserInteraction) :=
  match findArticle db articleId with
  | none => .error (.notFound "Article not found")
  | some _ =>
    if interactionType != .VIEW
        && (findInteraction db userId articleId interactionType).isSome then
      .error (.badRequest
        ("You have already " ++ lowerName interactionType ++ "d this article"))
    else if (findInteraction db userId articleId interactionType).isSome then
      .error .uniqueViolation
    else
      let row : UserInteraction :=
        { userId := userId, articleId := articleId,
          interactionType := interactionType }
      .ok ({ db with
              interactions := db.interactions ++ [row],
              articles :=
                updateWhereId db.articles articleId
                  (bumpCounts interactionType) },
           row)

/-- `InteractionService.deleteInteraction`: VIEW deletion is rejected with
`BadRequestError` before anything is read or written; a missing row is
NotFound; otherwise the row is deleted and the matching counter
decremented in one transaction. -/
def deleteInteraction (db : DB) (userId articleId : String)
    (interactionType : InteractionType) : Except ApiErr DB :=
  if interactionType = .VIEW then
    .error (.badRequest "Cannot delete VIEW interactions")
  else
    match findInteraction db userId articleId interactionType with
    | none => .error (.notFound "Interaction not found")
    | some _ =>
      .ok { db with
            interactions :=
              db.interactions.filter
                (fun r => !(keyEq userId articleId interactionType r)),
            articles :=
              updateWhereId db.articles articleId
                (dropCounts interactionType) }

/-- `ArticleService.incrementViewCount`, wired to `POST /articles/:id/view`:
a bare counter update with no interaction row and no transaction with the
interaction table.  A missing article makes the Prisma update raise P2025. -/
def incrementViewCount (db : DB) (id : String) : Except ApiErr DB :=
  match findArticle db id with
  | none => .error .recordMissing
  | some _ =>
    .ok { db with
          articles :=
            updateWhereId db.articles id
              (fun art => { art with viewCount := art.viewCount + 1 }) }

/-- The counter-writing entry points of the service layer.  `createOp` and
`deleteOp` are the interaction transactions; `viewOp` is the
`incrementViewCount` endpoint. -/
inductive LedgerOp
  | createOp (userId articleId : String) (t : InteractionType)
  | deleteOp (userId articleId : String) (t : InteractionType)
  | viewOp (articleId : String)

/-- Run one ledger operation; a failed call leaves the state unchanged
(the service either throws before writing or aborts the transaction).
The second component is a ghost counter of successful `incrementViewCount`
calls per article id, used to state how far `viewCount` drifts from the
number of VIEW rows. -/
def stepLedger (op : LedgerOp) (s : DB × (String → Nat)) :
    DB × (String → Nat) :=
  match op with
  | .createOp u a t =>
    match createInteraction s.1 u a t with
    | .ok (db2, _) => (db2, s.2)
    | .error _ => s
  | .deleteOp u a t =>
    match deleteInteraction s.1 u a t with
    | .ok db2 => (db2, s.2)
    | .error _ => s
  | .viewOp a =>
    match incrementViewCount s.1 a with
    | .ok db2 => (db2, fun x => if x = a then s.2 x + 1 else s.2 x)
    | .error _ => s

/-- Run a sequence of ledger operations. -/
def runLedger (ops : List LedgerOp) (s : DB × (String → Nat)) :
    DB × (String → Nat) :=
  ops.foldl (fun s op => stepLedger op s) s

/-- Predicate selecting the rows of one article and kind. -/
def rowP (articleId : String) (t : InteractionType)
    (r : UserInteraction) : Bool :=
  r.articleId = articleId && r.interactionType = t

/-- Number of interaction rows for one article and kind. -/
def rowsCountL (l : List UserInteraction) (articleId : String)
    (t : InteractionType) : Nat :=
  l.countP (rowP articleId t)

/-- Number of interaction rows for one article and kind in the store. -/
def rowsCount (db : DB) (articleId : String) (t : InteractionType) : Nat :=
  rowsCountL db.interactions articleId t

/-- The unique index on (userId, articleId, interactionType): no two rows
share the compound key. -/
def uniqueKeys (l : List UserInteraction) : Prop :=
  l.Pairwise (fun r s =>
    ¬(r.userId = s.userId ∧ r.articleId = s.articleId ∧
      r.interactionType = s.interactionType))

/-- Primary-key uniqueness of article ids. -/
def uniqueArticleIds (l : List Article) : Prop :=
  l.Pairwise (fun a b => a.id ≠ b.id)

/-- The counter-ledger relation: like and save counters equal their row
counts; the view counter equals the VIEW row count plus the ghost count of
`incrementViewCount` calls for that article. -/
def countersMatch (db : DB) (g : String → Nat) : Prop :=
  ∀ art ∈ db.articles,
    art.likeCount = (rowsCount db art.id .LIKE : Int) ∧
    art.saveCount = (rowsCount db art.id .SAVE : Int) ∧
    art.viewCount = (rowsCount db art.id .VIEW : Int) + (g art.id : Int)

/-- Invariant carried through ledger runs: key uniqueness, article-id
uniqueness and the counter relation. -/
def LedgerInv (s : DB × (String → Nat)) : Prop :=
  uniqueArticleIds s.1.articles ∧ uniqueKeys s.1.interactions ∧
    countersMatch s.1 s.2

instance (s : DB × (String → Nat)) : Decidable (LedgerInv s) := by
  unfold LedgerInv uniqueArticleIds uniqueKeys countersMatch
  infer_instance

/-- `prisma.feed.findUnique({ where: { userId } })`. -/
def findFeed (db : DB) (userId : String) : Option Feed :=
  db.feeds.find? (fun f => f.userId = userId)

/-- `FeedService.createFeed`: an existing feed is rejected with
`ForbiddenError("Feed already exists for this user")`; a missing user with
NotFound; otherwise a feed is created with the given article ids and
`currentPosition = 0` (`articleIds` defaults to `[]` at the call sites that
omit it). -/
def createFeed (db : DB) (userId : String) (articleIds : List String) :
    Except ApiErr (DB × Feed) :=
  match findFeed db userId with
  | some _ => .error (.forbidden "Feed already exists for this user")
  | none =>
    if db.users.contains userId then
      let f : Feed :=
        { userId := userId, articleIds := articleIds, currentPosition := 0 }
      .ok ({ db with feeds := db.feeds ++ [f] }, f)
    else
      .error (.notFound "User not found")

/-- `FeedService.updateFeedPosition`: no bound check of any kind in the
service; a missing feed is NotFound, otherwise `currentPosition` is set to
the given value. -/
def updateFeedPosition (db : DB) (userId : String) (position : Int) :
    Except ApiErr (DB × Feed) :=
  match findFeed db userId with
  | none => .error (.notFound ("Feed for user " ++ userId ++ " not found"))
  | some f =>
    .ok ({ db with
            feeds := db.feeds.map (fun g =>
              if g.userId = userId then { g with currentPosition := position }
              else g) },
         { f with currentPosition := position })

/-- `PUT /feeds/me/position`: `validateUpdateFeedPosition` in
`feed.validation.ts` only requires the position to be an integer `≥ 0`
(`isInt({ min: 0 })`); there is no comparison against the length of
`articleIds` anywhere on this path. -/
def updateFeedPositionEndpoint (db : DB) (userId : String) (position : Int) :
    Except ApiErr (DB × Feed) :=
  if position < 0 then
    .error (.badRequest "Position must be a non-negative integer")
  else
    updateFeedPosition db userId position

/-- `FeedService.updateFeed`: partial update of `articleIds` and
`currentPosition` with an ownership check (owner or admin). -/
def updateFeed (db : DB) (userId : String)
    (articleIds : Option (List String)) (currentPosition : Option Int)
    (requestingUserId : String) (isAdmin : Bool) :
    Except ApiErr (DB × Feed) :=
  if userId != requestingUserId && !isAdmin then
    .error (.forbidden "You can only update your own feed")
  else
    match findFeed db userId with
    | none => .error (.notFound ("Feed for user " ++ userId ++ " not found"))
    | some f =>
      let f2 : Feed :=
        { f with
          articleIds := articleIds.getD f.articleIds,
          currentPosition := currentPosition.getD f.currentPosition }
      .ok ({ db with
              feeds := db.feeds.map (fun g =>
                if g.userId = userId then
                  { g with
                    articleIds := articleIds.getD g.articleIds,
                    currentPosition := currentPosition.getD g.currentPosition }
                else g) },
           f2)

/-- `PUT /feeds/me`: `validateUpdateFeed` only requires an optional
`currentPosition` to be an integer `≥ 0`; again no upper bound. -/
def updateMyFeedEndpoint (db : DB) (userId : String)
    (articleIds : Option (List String)) (currentPosition : Option Int) :
    Except ApiErr (DB × Feed) :=
  match currentPosition with
  | some p =>
    if p < 0 then
      .error (.badRequest "Current position must be a non-negative integer")
    else
      updateFeed db userId articleIds currentPosition userId false
  | none => updateFeed db userId articleIds currentPosition userId false

/-- `FeedService.regenerateFeed`: creates the feed when absent, otherwise
replaces `articleIds` and resets `currentPosition` to 0 unconditionally. -/
def regenerateFeed (db : DB) (userId : String) (articleIds : List String) :
    Except ApiErr (DB × Feed) :=
  match findFeed db userId with
  | none => createFeed db userId articleIds
  | some f =>
    .ok ({ db with
            feeds := db.feeds.map (fun g =>
              if g.userId = userId then
                { g with articleIds := articleIds, currentPosition := 0 }
              else g) },
         { f with articleIds := articleIds, currentPosition := 0 })

/-- The storage state after a `createFeed` call: the new state on success,
the old state when the service threw. -/
def feedStateAfterCreate (db : DB) (userId : String)
    (articleIds : List String) : DB :=
  match createFeed db userId articleIds with
  | .ok (db2, _) => db2
  | .error _ => db

/-- Pagination envelope returned by the list endpoints. -/
structure Pagination where
  page : Nat
  limit : Nat
  total : Nat
  totalPages : Nat
  deriving DecidableEq

/-- Result shape of `getLikedArticles` and `getSavedArticles`. -/
structure ArticlePage where
  articles : List Article
  pagination : Pagination
  deriving DecidableEq

/-- The LIKE rows of one user, newest first (`orderBy createdAt desc` over
rows stored in creation order). -/
def likedRows (db : DB) (userId : String) : List UserInteraction :=
  (db.interactions.filter
    (fun r => r.userId = userId && r.interactionType = .LIKE)).reverse

/-- `InteractionService.getLikedArticles`: page through the LIKE rows with
`skip = (page - 1) * limit`, join each row to its article, and report
`totalPages = ceil(total / limit)`. -/
def getLikedArticles (db : DB) (userId : String) (page limit : Nat) :
    ArticlePage :=
  let rows := likedRows db userId
  let pageRows := (rows.drop ((page - 1) * limit)).take limit
  { articles := pageRows.filterMap (fun r => findArticle db r.articleId),
    pagination :=
      { page := page, limit := limit, total := rows.length,
        totalPages := (rows.length + limit - 1) / limit } }

/-- `InteractionService.getPublicLikedArticles`: verify the target user
exists (else NotFound), then delegate to `getLikedArticles`.  No ownership
or admin check. -/
def getPublicLikedArticles (db : DB) (userId : String) (page limit : Nat) :
    Except ApiErr ArticlePage :=
  if db.users.contains userId then
    .ok (getLikedArticles db userId page limit)
  else
    .error (.notFound "User not found")

/-- `InteractionController.getUserLikedArticles` behind
`GET /interactions/users/:userId/liked`: the route only requires an
authenticated caller; the handler passes `req.params.userId` straight to
the service and never consults `req.user` beyond authentication, so the
caller identity is an unused argument. -/
def getUserLikedArticles (_callerId : String) (targetUserId : String)
    (page limit : Nat) (db : DB) : Except ApiErr ArticlePage :=
  getPublicLikedArticles db targetUserId page limit

/-- Input shape of the Wikipedia upsert (`WikipediaArticle` in the types of
the article service). -/
structure WikipediaArticle where
  id : String
  title : String
  wikipediaUrl : String
  content : Option String
  thumbnail : Option String
  deriving DecidableEq

/-- The lookup disjunction of `upsertFromWikipedia`: match by external
Wikipedia id or by URL. -/
def wikiMatch (d : WikipediaArticle) (art : Article) : Bool :=
  art.wikipediaId = some d.id || art.wikipediaUrl = d.wikipediaUrl

/-- Result of a single upsert. -/
structure UpsertResult where
  article : Article
  created : Bool
  deriving DecidableEq

/-- Fresh row id minted by the storage layer. -/
def freshId (n : Nat) : String := "article-" ++ toString n

/-- The article row inserted by `upsertFromWikipedia` on a miss: a new
unprocessed article with empty tags, no summary and no audio. -/
def freshWikiArticle (n : Nat) (d : WikipediaArticle) : Article :=
  { id := freshId n,
    wikipediaId := some d.id,
    title := d.title,
    wikipediaUrl := d.wikipediaUrl,
    content := d.content,
    aiSummary := none,
    audioUrl := none,
    imageUrl := d.thumbnail,
    tags := [],
    isActive := true,
    isProcessed := false,
    viewCount := 0, likeCount := 0, saveCount := 0,
    categoryId := none }

/-- `ArticleService.upsertFromWikipedia`: `findFirst` on
`wikipediaId OR wikipediaUrl`; when found, return the existing row
unchanged with `created = false`; when absent, insert a new unprocessed
article and push it to Gorse. -/
def upsertFromWikipedia (db : DB) (d : WikipediaArticle) : DB × UpsertResult :=
  match db.articles.find? (wikiMatch d) with
  | some art => (db, { article := art, created := false })
  | none =>
    ({ db with
        articles := db.articles ++ [freshWikiArticle db.nextId d],
        nextId := db.nextId + 1,
        gorseItems := db.gorseItems ++ [(d.id, d.title)] },
     { article := freshWikiArticle db.nextId d, created := true })

/-- Externally visible effects of `ArticleService.regenerateAudio`. -/
inductive AudioAction
  | deleteAudio (url : String)
  | synthesize (articleId : String)
  | persistAudio (articleId : String)
  deriving DecidableEq

/-- The effect sequence of one `regenerateAudio(id)` run as a function of
the `audioUrl` its initial read observed: delete the old audio object if
one was observed, then call `TTSService.generateAudioSummary`, then persist
the new `audioUrl`.  The method takes no lock and consults no shared
in-flight state, so the sequence does not depend on any other run. -/
def regenerateAudioActions (articleId : String)
    (observedAudioUrl : Option String) : List AudioAction :=
  (match observedAudioUrl with
   | some url => [AudioAction.deleteAudio url]
   | none => []) ++
  [AudioAction.synthesize articleId, AudioAction.persistAudio articleId]

/-- Number of speech-synthesis calls for one article in an effect trace. -/
def ttsCalls (articleId : String) (l : List AudioAction) : Nat :=
  l.countP (fun a => a = AudioAction.synthesize articleId)

/-- Arbitrary interleaving of two effect traces (the request-per-call
scheduler may switch between the two runs at any step). -/
inductive Interleaving :
    List AudioAction → List AudioAction → List AudioAction → Prop
  | nil : Interleaving [] [] []
  | left {x : AudioAction} {xs ys zs : List AudioAction} :
      Interleaving xs ys zs → Interleaving (x :: xs) ys (x :: zs)
  | right {y : AudioAction} {xs ys zs : List AudioAction} :
      Interleaving xs ys zs → Interleaving xs (y :: ys) (y :: zs)

/-- One concrete schedule of two `regenerateAudio` runs on the same fresh
item: the first run completes, then the second runs. -/
def twoRunsBackToBack : List AudioAction :=
  regenerateAudioActions "a1" none ++ regenerateAudioActions "a1" none

/-- Demo article used by concrete witnesses and counterexamples. -/
def demoArticle : Article :=
  { id := "a1",
    wikipediaId := some "w1",
    title := "Quantum",
    wikipediaUrl := "wiki/Quantum",
    content := none,
    aiSummary := some "summary",
    audioUrl := none,
    imageUrl := none,
    tags := [],
    isActive := true,
    isProcessed := false,
    viewCount := 0, likeCount := 0, saveCount := 0,
    categoryId := none }

/-- Demo store: one user, one article, no interactions, no feeds. -/
def demoDB : DB :=
  { users := ["u"],
    articles := [demoArticle],
    interactions := [],
    feeds := [],
    nextId := 0,
    gorseItems := [] }

/-- Demo store in which user `u` already liked article `a1`. -/
def demoLikedDB : DB :=
  { demoDB with
    articles := [{ demoArticle with likeCount := 1 }],
    interactions :=
      [{ userId := "u", articleId := "a1", interactionType := .LIKE }] }

/-- Demo store with a three-item feed for user `u`. -/
def demoFeedDB : DB :=
  { demoDB with
    feeds := [{ userId := "u", articleIds := ["a1", "a2", "a3"],
                currentPosition := 1 }] }

/-- Result of creating the same VIEW interaction twice in a row. -/
def viewTwiceResult : Except ApiErr (DB × UserInteraction) :=
  match createInteraction demoDB "u" "a1" .VIEW with
  | .ok (db1, _) => createInteraction db1 "u" "a1" .VIEW
  | .error e => .error e

/-- Demo input for the Wikipedia upsert. -/
def demoWikiInput : WikipediaArticle :=
  { id := "Q123",
    title := "Quantum",
    wikipediaUrl := "wiki/Quantum2",
    content := some "raw extract",
    thumbnail := none }

/-- Demo run of ledger operations used by the counter-ledger witness. -/
def demoLedgerOps : List LedgerOp :=
  [LedgerOp.createOp "u" "a1" .LIKE,
   LedgerOp.viewOp "a1",
   LedgerOp.createOp "u" "a1" .VIEW,
   LedgerOp.createOp "u" "a1" .LIKE,
   LedgerOp.deleteOp "u" "a1" .LIKE,
   LedgerOp.deleteOp "u" "a1" .VIEW,
   LedgerOp.createOp "u" "a1" .SAVE]

/-! General lemmas about counted rows, key uniqueness and id-preserving
table updates, used by the counter-ledger invariant. -/

theorem keyEq_iff (u a : String) (t : InteractionType) (r : UserInteraction) :
    keyEq u a t r = true ↔
      r.userId = u ∧ r.articleId = a ∧ r.interactionType = t := by
  simp [keyEq, Bool.and_eq_true, decide_eq_true_eq, and_assoc]

theorem rowP_iff (a : String) (t : InteractionType) (r : UserInteraction) :
    rowP a t r = true ↔ r.articleId = a ∧ r.interactionType = t := by
  simp [rowP, Bool.and_eq_true, decide_eq_true_eq]

theorem countP_split (l : List α) (p q : α → Bool) :
    l.countP p =
      l.countP (fun x => p x && q x) + l.countP (fun x => p x && !q x) := by
  induction l with
  | nil => simp
  | cons x xs ih =>
    cases hp : p x <;> cases hq : q x <;>
      simp [List.countP_cons, hp, hq, ih] <;> omega

theorem countP_congrB (l : List α) (p q : α → Bool)
    (h : ∀ x ∈ l, p x = q x) : l.countP p = l.countP q := by
  induction l with
  | nil => rfl
  | cons x xs ih =>
    have hx := h x (List.mem_cons_self x xs)
    have hxs := ih (fun y hy => h y (List.mem_cons_of_mem x hy))
    simp [List.countP_cons, hx, hxs]

theorem countP_key_one (l : List UserInteraction) (u a : String)
    (t : InteractionType) (hu : uniqueKeys l) (r0 : UserInteraction)
    (h : l.find? (keyEq u a t) = some r0) :
    l.countP (keyEq u a t) = 1 := by
  induction l with
  | nil => simp at h
  | cons x xs ih =>
    rw [uniqueKeys, List.pairwise_cons] at hu
    cases hk : keyEq u a t x with
    | true =>
      have hzero : xs.countP (keyEq u a t) = 0 := by
        rw [List.countP_eq_zero]
        intro y hy hky
        have hky2 := (keyEq_iff u a t y).mp hky
        have hkx := (keyEq_iff u a t x).mp hk
        exact hu.1 y hy
          ⟨hkx.1.trans hky2.1.symm, hkx.2.1.trans hky2.2.1.symm,
           hkx.2.2.trans hky2.2.2.symm⟩
      simp [List.countP_cons, hk, hzero]
    | false =>
      rw [List.find?_cons_of_neg _ (by simp [hk])] at h
      have hxs := ih hu.2 h
      simp [List.countP_cons, hk, hxs]

theorem countP_row_and_key (l : List UserInteraction) (u a : String)
    (t : InteractionType) (a2 : String) (t2 : InteractionType)
    (h1 : l.countP (keyEq u a t) = 1) :
    l.countP (fun r => rowP a2 t2 r && keyEq u a t r) =
      if a = a2 ∧ t = t2 then 1 else 0 := by
  by_cases hc : a = a2 ∧ t = t2
  · rw [if_pos hc, ← h1]
    apply countP_congrB
    intro r _
    cases hk : keyEq u a t r with
    | true =>
      have h3 := (keyEq_iff u a t r).mp hk
      have hrow : rowP a2 t2 r = true :=
        (rowP_iff a2 t2 r).mpr ⟨hc.1 ▸ h3.2.1, hc.2 ▸ h3.2.2⟩
      simp [hrow]
    | false => simp
  · rw [if_neg hc, List.countP_eq_zero]
    intro r _ hr
    rw [Bool.and_eq_true] at hr
    have h3 := (keyEq_iff u a t r).mp hr.2
    have h4 := (rowP_iff a2 t2 r).mp hr.1
    exact hc ⟨h3.2.1.symm.trans h4.1, h3.2.2.symm.trans h4.2⟩

theorem rowsCountL_append_row (l : List UserInteraction) (u a : String)
    (t : InteractionType) (a2 : String) (t2 : InteractionType) :
    rowsCountL (l ++ [(⟨u, a, t⟩ : UserInteraction)]) a2 t2 =
      rowsCountL l a2 t2 + (if a = a2 ∧ t = t2 then 1 else 0) := by
  rw [rowsCountL, rowsCountL, List.countP_append]
  congr 1
  have hiff := rowP_iff a2 t2 ⟨u, a, t⟩
  cases hrp : rowP a2 t2 ⟨u, a, t⟩ with
  | true =>
    rw [hrp] at hiff
    simp [List.countP_cons, hrp, if_pos (hiff.mp rfl)]
  | false =>
    have hneg : ¬(a = a2 ∧ t = t2) := by
      intro hcc
      rw [hiff.mpr hcc] at hrp
      cases hrp
    simp [List.countP_cons, hrp, if_neg hneg]

theorem rowsCountL_filter_key (l : List UserInteraction) (u a : String)
    (t : InteractionType) (h1 : l.countP (keyEq u a t) = 1)
    (a2 : String) (t2 : InteractionType) :
    rowsCountL l a2 t2 =
      rowsCountL (l.filter (fun r => !(keyEq u a t r))) a2 t2 +
        (if a = a2 ∧ t = t2 then 1 else 0) := by
  rw [rowsCountL, rowsCountL, List.countP_filter,
    countP_split l (rowP a2 t2) (keyEq u a t),
    countP_row_and_key l u a t a2 t2 h1]
  omega

theorem uniqueKeys_append_row (l : List UserInteraction) (u a : String)
    (t : InteractionType) (hu : uniqueKeys l)
    (hnone : l.find? (keyEq u a t) = none) :
    uniqueKeys (l ++ [(⟨u, a, t⟩ : UserInteraction)]) := by
  rw [uniqueKeys, List.pairwise_append]
  refine ⟨hu, List.pairwise_singleton _ _, ?_⟩
  intro r hr s hs
  rw [List.mem_singleton] at hs
  subst hs
  intro hkey
  exact List.find?_eq_none.mp hnone r hr
    ((keyEq_iff u a t r).mpr ⟨hkey.1, hkey.2.1, hkey.2.2⟩)

theorem uniqueArticleIds_update (l : List Article) (a : String)
    (f : Article → Article) (hf : ∀ x, (f x).id = x.id)
    (h : uniqueArticleIds l) : uniqueArticleIds (updateWhereId l a f) := by
  rw [uniqueArticleIds, updateWhereId, List.pairwise_map]
  have gid : ∀ x : Article, (if x.id = a then f x else x).id = x.id := by
    intro x
    by_cases hx : x.id = a <;> simp [hx, hf]
  exact h.imp (fun hxy => by rw [gid, gid]; exact hxy)

theorem bumpCounts_id (t : InteractionType) (art : Article) :
    (bumpCounts t art).id = art.id := by
  cases t <;> rfl

theorem dropCounts_id (t : InteractionType) (art : Article) :
    (dropCounts t art).id = art.id := by
  cases t <;> rfl

/-! Characterization of the successful paths of the three counter-writing
operations. -/

theorem createInteraction_ok_char (db : DB) (u a : String)
    (t : InteractionType) (db2 : DB) (row : UserInteraction)
    (h : createInteraction db u a t = .ok (db2, row)) :
    findInteraction db u a t = none ∧
    db2 = { db with
            interactions :=
              db.interactions ++ [(⟨u, a, t⟩ : UserInteraction)],
            articles := updateWhereId db.articles a (bumpCounts t) } := by
  unfold createInteraction at h
  split at h
  · exact absurd h (by simp)
  · split at h
    · exact absurd h (by simp)
    · split at h
      · exact absurd h (by simp)
      · next hdup =>
        refine ⟨?_, ?_⟩
        · cases hfi : findInteraction db u a t with
          | none => rfl
          | some r => rw [hfi] at hdup; exact absurd rfl hdup
        · exact (congrArg Prod.fst (Except.ok.inj h)).symm

theorem deleteInteraction_ok_char (db : DB) (u a : String)
    (t : InteractionType) (db2 : DB)
    (h : deleteInteraction db u a t = .ok db2) :
    t ≠ .VIEW ∧
    (∃ r0, findInteraction db u a t = some r0) ∧
    db2 = { db with
            interactions :=
              db.interactions.filter (fun r => !(keyEq u a t r)),
            articles := updateWhereId db.articles a (dropCounts t) } := by
  unfold deleteInteraction at h
  split at h
  · exact absurd h (by simp)
  · next hview =>
    split at h
    · exact absurd h (by simp)
    · next r0 hfound =>
      exact ⟨hview, ⟨r0, hfound⟩, (Except.ok.inj h).symm⟩

theorem incrementViewCount_ok_char (db : DB) (a : String) (db2 : DB)
    (h : incrementViewCount db a = .ok db2) :
    db2 = { db with
            articles :=
              updateWhereId db.articles a
                (fun art => { art with viewCount := art.viewCount + 1 }) } := by
  unfold incrementViewCount at h
  split at h
  · exact absurd h (by simp)
  · exact (Except.ok.inj h).symm

/-! Preservation of the counter relation by each successful operation. -/

theorem countersMatch_create (db : DB) (u a : String) (t : InteractionType)
    (g : String → Nat) (hm : countersMatch db g) :
    countersMatch
      { db with
        interactions := db.interactions ++ [(⟨u, a, t⟩ : UserInteraction)],
        articles := updateWhereId db.articles a (bumpCounts t) } g := by
  intro art2 h2
  obtain ⟨x, hx, rfl⟩ := List.mem_map.mp h2
  have hrows : ∀ a2 t2,
      rowsCount
        { db with
          interactions := db.interactions ++ [(⟨u, a, t⟩ : UserInteraction)],
          articles := updateWhereId db.articles a (bumpCounts t) } a2 t2 =
        rowsCountL db.interactions a2 t2 +
          (if a = a2 ∧ t = t2 then 1 else 0) :=
    fun a2 t2 => rowsCountL_append_row db.interactions u a t a2 t2
  obtain ⟨hl, hs, hv⟩ := hm x hx
  have hrowsx : ∀ t2, rowsCount db x.id t2 = rowsCountL db.interactions x.id t2 :=
    fun t2 => rfl
  rw [hrowsx] at hl hs hv
  by_cases hxa : x.id = a
  · rw [if_pos hxa]
    cases t <;>
      refine ⟨?_, ?_, ?_⟩ <;>
      (simp only [bumpCounts, hrows]
       simp [hxa, hl, hs, hv]
       try omega)
  · rw [if_neg hxa]
    have hne : ¬ a = x.id := fun hcc => hxa hcc.symm
    refine ⟨?_, ?_, ?_⟩ <;>
      (simp only [hrows]
       simp [hne, hl, hs, hv])

theorem countersMatch_delete (db : DB) (u a : String) (t : InteractionType)
    (g : String → Nat) (hm : countersMatch db g)
    (hone : db.interactions.countP (keyEq u a t) = 1)
    (hview : t ≠ .VIEW) :
    countersMatch
      { db with
        interactions := db.interactions.filter (fun r => !(keyEq u a t r)),
        articles := updateWhereId db.articles a (dropCounts t) } g := by
  intro art2 h2
  obtain ⟨x, hx, rfl⟩ := List.mem_map.mp h2
  have hrows : ∀ a2 t2,
      rowsCountL db.interactions a2 t2 =
        rowsCount
          { db with
            interactions :=
              db.interactions.filter (fun r => !(keyEq u a t r)),
            articles := updateWhereId db.articles a (dropCounts t) } a2 t2 +
          (if a = a2 ∧ t = t2 then 1 else 0) :=
    fun a2 t2 => rowsCountL_filter_key db.interactions u a t hone a2 t2
  obtain ⟨hl, hs, hv⟩ := hm x hx
  have hrowsx : ∀ t2,
      rowsCount db x.id t2 = rowsCountL db.interactions x.id t2 :=
    fun t2 => rfl
  rw [hrowsx] at hl hs hv
  rw [hrows] at hl hs hv
  by_cases hxa : x.id = a
  · rw [if_pos hxa]
    cases t with
    | VIEW => exact absurd rfl hview
    | LIKE =>
      refine ⟨?_, ?_, ?_⟩ <;>
        simp only [dropCounts] <;>
        simp [hxa] at hl hs hv ⊢ <;>
        omega
    | SAVE =>
      refine ⟨?_, ?_, ?_⟩ <;>
        simp only [dropCounts] <;>
        simp [hxa] at hl hs hv ⊢ <;>
        omega
  · rw [if_neg hxa]
    have hne : ¬ a = x.id := fun hcc => hxa hcc.symm
    simp [hne] at hl hs hv
    exact ⟨hl, hs, hv⟩

theorem countersMatch_view (db : DB) (a : String) (g : String → Nat)
    (hm : countersMatch db g) :
    countersMatch
      { db with
        articles :=
          updateWhereId db.articles a
            (fun art => { art with viewCount := art.viewCount + 1 }) }
      (fun x => if x = a then g x + 1 else g x) := by
  intro art2 h2
  obtain ⟨x, hx, rfl⟩ := List.mem_map.mp h2
  obtain ⟨hl, hs, hv⟩ := hm x hx
  by_cases hxa : x.id = a
  · rw [if_pos hxa]
    refine ⟨hl, hs, ?_⟩
    show x.viewCount + 1 =
      (rowsCount db x.id .VIEW : Int) +
        ((if x.id = a then g x.id + 1 else g x.id : Nat) : Int)
    rw [if_pos hxa]
    push_cast
    omega
  · rw [if_neg hxa]
    refine ⟨hl, hs, ?_⟩
    show x.viewCount =
      (rowsCount db x.id .VIEW : Int) +
        ((if x.id = a then g x.id + 1 else g x.id : Nat) : Int)
    rw [if_neg hxa]
    exact hv

/-- One ledger step preserves the invariant. -/
theorem ledgerInv_step (op : LedgerOp) (s : DB × (String → Nat))
    (h : LedgerInv s) : LedgerInv (stepLedger op s) := by
  obtain ⟨hart, hkeys, hm⟩ := h
  cases op with
  | createOp u a t =>
    cases hc : createInteraction s.1 u a t with
    | error e =>
      simpa [stepLedger, hc] using
        (⟨hart, hkeys, hm⟩ : LedgerInv s)
    | ok pr =>
      obtain ⟨db2, row⟩ := pr
      obtain ⟨hnone, hdb2⟩ := createInteraction_ok_char s.1 u a t db2 row hc
      have hstep : stepLedger (.createOp u a t) s = (db2, s.2) := by
        simp [stepLedger, hc]
      rw [hstep, hdb2]
      exact ⟨uniqueArticleIds_update _ _ _ (bumpCounts_id t) hart,
             uniqueKeys_append_row _ u a t hkeys hnone,
             countersMatch_create s.1 u a t s.2 hm⟩
  | deleteOp u a t =>
    cases hc : deleteInteraction s.1 u a t with
    | error e =>
      simpa [stepLedger, hc] using
        (⟨hart, hkeys, hm⟩ : LedgerInv s)
    | ok db2 =>
      obtain ⟨hview, ⟨r0, hfound⟩, hdb2⟩ :=
        deleteInteraction_ok_char s.1 u a t db2 hc
      have hone : s.1.interactions.countP (keyEq u a t) = 1 :=
        countP_key_one s.1.interactions u a t hkeys r0 hfound
      have hstep : stepLedger (.deleteOp u a t) s = (db2, s.2) := by
        simp [stepLedger, hc]
      rw [hstep, hdb2]
      exact ⟨uniqueArticleIds_update _ _ _ (dropCounts_id t) hart,
             hkeys.sublist (List.filter_sublist _),
             countersMatch_delete s.1 u a t s.2 hm hone hview⟩
  | viewOp a =>
    cases hc : incrementViewCount s.1 a with
    | error e =>
      simpa [stepLedger, hc] using
        (⟨hart, hkeys, hm⟩ : LedgerInv s)
    | ok db2 =>
      have hdb2 := incrementViewCount_ok_char s.1 a db2 hc
      have hstep : stepLedger (.viewOp a) s =
          (db2, fun x => if x = a then s.2 x + 1 else s.2 x) := by
        simp [stepLedger, hc]
      rw [hstep, hdb2]
      exact ⟨uniqueArticleIds_update _ _ _ (fun x => rfl) hart,
             hkeys,
             countersMatch_view s.1 a s.2 hm⟩

/-- Any run of ledger operations preserves the invariant. -/
theorem ledgerInv_run (ops : List LedgerOp) (s : DB × (String → Nat))
    (h : LedgerInv s) : LedgerInv (runLedger ops s) := by
  induction ops generalizing s with
  | nil => exact h
  | cons op ops ih => exact ih (stepLedger op s) (ledgerInv_step op s h)

/-! Helper lemmas for the upsert, feed and audio claims. -/

theorem upsert_miss (db : DB) (d : WikipediaArticle)
    (hmiss : db.articles.find? (wikiMatch d) = none) :
    upsertFromWikipedia db d =
      ({ db with
          articles := db.articles ++ [freshWikiArticle db.nextId d],
          nextId := db.nextId + 1,
          gorseItems := db.gorseItems ++ [(d.id, d.title)] },
       { article := freshWikiArticle db.nextId d, created := true }) := by
  unfold upsertFromWikipedia
  rw [hmiss]

theorem upsert_found (db2 : DB) (d : WikipediaArticle) (art : Article)
    (hfind : db2.articles.find? (wikiMatch d) = some art) :
    upsertFromWikipedia db2 d = (db2, { article := art, created := false }) := by
  unfold upsertFromWikipedia
  rw [hfind]

theorem wikiMatch_fresh (n : Nat) (d : WikipediaArticle) :
    wikiMatch d (freshWikiArticle n d) = true := by
  simp [wikiMatch, freshWikiArticle]

theorem findFeed_map_update (feeds : List Feed) (u : String) (f : Feed)
    (hf : feeds.find? (fun g => g.userId = u) = some f)
    (upd : Feed → Feed) (hupd : ∀ g, (upd g).userId = g.userId) :
    (feeds.map (fun g => if g.userId = u then upd g else g)).find?
      (fun g => g.userId = u) = some (upd f) := by
  induction feeds with
  | nil => simp at hf
  | cons x xs ih =>
    by_cases hx : x.userId = u
    · rw [List.find?_cons_of_pos _ (by simp [hx])] at hf
      have hxf : x = f := Option.some.inj hf
      subst hxf
      rw [List.map_cons, if_pos hx,
        List.find?_cons_of_pos _ (by simp [hupd, hx])]
    · rw [List.find?_cons_of_neg _ (by simp [hx])] at hf
      rw [List.map_cons, if_neg hx,
        List.find?_cons_of_neg _ (by simp [hx])]
      exact ih hf

theorem interleaving_ttsCalls (a : String) (xs ys zs : List AudioAction)
    (h : Interleaving xs ys zs) :
    ttsCalls a zs = ttsCalls a xs + ttsCalls a ys := by
  induction h with
  | nil => rfl
  | left h ih =>
    simp only [ttsCalls, List.countP_cons] at ih ⊢
    omega
  | right h ih =>
    simp only [ttsCalls, List.countP_cons] at ih ⊢
    omega

theorem ttsCalls_one_run (a : String) (o : Option String) :
    ttsCalls a (regenerateAudioActions a o) = 1 := by
  cases o <;> simp [ttsCalls, regenerateAudioActions, List.countP_cons]

/-! Claim theorems. -/

/-- C1 counterexample: `ArticleService.incrementViewCount` (wired to
`POST /articles/:id/view`) is a code path outside the atomic interaction
transactions that writes `viewCount`.  One call on a consistent store with
zero interactions leaves `viewCount = 1` while the number of VIEW rows is
still 0, so the counter no longer equals the count of matching interaction
records. -/
theorem counter_ledger_outside_writer_cex :
    ((stepLedger (LedgerOp.viewOp "a1") (demoDB, fun _ => 0)).1.articles.map
        Article.viewCount) = [1] ∧
    rowsCount (stepLedger (LedgerOp.viewOp "a1") (demoDB, fun _ => 0)).1
      "a1" InteractionType.VIEW = 0 := by
  decide

/-- C1 (amended): across any sequence of calls to the counter-writing
entry points (interaction create and delete, plus the
`incrementViewCount` endpoint), `likeCount` and `saveCount` always equal
the number of matching interaction rows, while `viewCount` equals the
number of VIEW rows plus the number of successful `incrementViewCount`
calls for that article; the view endpoint is the one code path that
writes a counter outside the interaction transactions. -/
theorem counter_ledger_amended (ops : List LedgerOp) (db : DB)
    (h : LedgerInv (db, fun _ => 0)) :
    LedgerInv (runLedger ops (db, fun _ => 0)) ∧
    countersMatch (runLedger ops (db, fun _ => 0)).1
      (runLedger ops (db, fun _ => 0)).2 := by
  have h2 := ledgerInv_run ops (db, fun _ => 0) h
  exact ⟨h2, h2.2.2⟩

/-- Witness for C1 (amended) on a concrete run mixing creates, deletes,
failed duplicates, a rejected VIEW deletion and a view-endpoint call. -/
theorem counter_ledger_amended_witness :
    LedgerInv (runLedger demoLedgerOps (demoDB, fun _ => 0)) ∧
    countersMatch (runLedger demoLedgerOps (demoDB, fun _ => 0)).1
      (runLedger demoLedgerOps (demoDB, fun _ => 0)).2 :=
  counter_ledger_amended demoLedgerOps demoDB (by decide)

/-- C2 counterexample: with a LIKE row already present, the duplicate
create fails with `BadRequestError` (HTTP 400), not `ConflictError`
(HTTP 409) as the claim states. -/
theorem duplicate_like_conflict_cex :
    createInteraction demoLikedDB "u" "a1" InteractionType.LIKE =
      .error (.badRequest "You have already liked this article") ∧
    statusOf (.badRequest "You have already liked this article") = 400 ∧
    statusOf (.badRequest "You have already liked this article") ≠ 409 := by
  decide

/-- C2 (amended): creating a LIKE or SAVE that already exists fails with
`BadRequestError` (HTTP 400, message "You have already liked/saved this
article"), and the failed call leaves the interaction set and the
article counters unchanged. -/
theorem duplicate_like_save_badRequest (db : DB) (u a : String)
    (t : InteractionType) (g : String → Nat)
    (ht : t ≠ InteractionType.VIEW)
    (hart : (findArticle db a).isSome = true)
    (hrow : (findInteraction db u a t).isSome = true) :
    createInteraction db u a t =
      .error (.badRequest
        ("You have already " ++ lowerName t ++ "d this article")) ∧
    statusOf (.badRequest
      ("You have already " ++ lowerName t ++ "d this article")) = 400 ∧
    stepLedger (.createOp u a t) (db, g) = (db, g) := by
  have hcreate : createInteraction db u a t =
      .error (.badRequest
        ("You have already " ++ lowerName t ++ "d this article")) := by
    unfold createInteraction
    split
    · next heq => rw [heq] at hart; exact absurd hart (by simp)
    · have hcond : (t != InteractionType.VIEW
          && (findInteraction db u a t).isSome) = true := by
        rw [Bool.and_eq_true]
        exact ⟨by simp [ht], hrow⟩
      rw [if_pos hcond]
  refine ⟨hcreate, rfl, ?_⟩
  simp [stepLedger, hcreate]

/-- Witness for C2 (amended) at a concrete store with an existing LIKE. -/
theorem duplicate_like_save_badRequest_witness :
    createInteraction demoLikedDB "u" "a1" InteractionType.LIKE =
      .error (.badRequest
        ("You have already " ++ lowerName .LIKE ++ "d this article")) ∧
    statusOf (.badRequest
      ("You have already " ++ lowerName .LIKE ++ "d this article")) = 400 ∧
    stepLedger (.createOp "u" "a1" InteractionType.LIKE)
      (demoLikedDB, fun _ => 0) = (demoLikedDB, fun _ => 0) :=
  duplicate_like_save_badRequest demoLikedDB "u" "a1" InteractionType.LIKE
    (fun _ => 0) (by decide) (by decide) (by decide)

/-- C3: the first VIEW create succeeds, but the second identical VIEW
create violates the unique index
`UserInteraction_userId_articleId_interactionType_key` (which covers all
three kinds, VIEW included) and fails with the Prisma P2002 error,
surfaced as HTTP 409 — although the service deliberately skips the
duplicate pre-check for VIEW so that repeated views can be recorded.  The
schema contradicts the service layer; the claim describes the intended
behaviour. -/
theorem view_repeat_unique_violation :
    (createInteraction demoDB "u" "a1" InteractionType.VIEW).isOk = true ∧
    viewTwiceResult = .error .uniqueViolation ∧
    statusOf .uniqueViolation = 409 := by
  decide

/-- C7: deleting a VIEW interaction is always rejected with
`BadRequestError("Cannot delete VIEW interactions")` (HTTP 400), for
every store and every user and article, and the rejected call leaves the
store unchanged. -/
theorem view_delete_rejected (db : DB) (u a : String) (g : String → Nat) :
    deleteInteraction db u a InteractionType.VIEW =
      .error (.badRequest "Cannot delete VIEW interactions") ∧
    statusOf (.badRequest "Cannot delete VIEW interactions") = 400 ∧
    stepLedger (.deleteOp u a InteractionType.VIEW) (db, g) = (db, g) :=
  ⟨rfl, rfl, rfl⟩

/-- C4 counterexample: on the demo feed with 3 articleIds, setting
position 5 succeeds instead of being rejected with BadRequest; the stored
cursor ends up at 5, past the end of the list. -/
theorem position_bound_cex :
    (demoFeedDB.feeds.map (fun f => f.articleIds.length)) = [3] ∧
    (updateFeedPositionEndpoint demoFeedDB "u" 5).isOk = true ∧
    ((updateFeedPositionEndpoint demoFeedDB "u" 5).toOption.map
      (fun r => r.2.currentPosition)) = some 5 := by
  decide

/-- C4 (amended): for a user with a feed, `setPosition` and the partial
update accept every integer position `p ≥ 0`, with no upper bound — only
`0 ≤ p` is enforced (by the request validator); `p` greater than the
length of `articleIds` is accepted, and `p < 0` is rejected with
BadRequest. -/
theorem position_no_upper_bound (db : DB) (u : String) (p : Int) (f : Feed)
    (hf : findFeed db u = some f) :
    (0 ≤ p →
      updateFeedPositionEndpoint db u p =
        .ok ({ db with
                feeds := db.feeds.map (fun g =>
                  if g.userId = u then { g with currentPosition := p }
                  else g) },
             { f with currentPosition := p })) ∧
    (p < 0 →
      updateFeedPositionEndpoint db u p =
        .error (.badRequest "Position must be a non-negative integer")) ∧
    (0 ≤ p →
      updateMyFeedEndpoint db u none (some p) =
        .ok ({ db with
                feeds := db.feeds.map (fun g =>
                  if g.userId = u then { g with currentPosition := p }
                  else g) },
             { f with currentPosition := p })) ∧
    (p < 0 →
      updateMyFeedEndpoint db u none (some p) =
        .error (.badRequest "Current position must be a non-negative integer")) := by
  refine ⟨?_, ?_, ?_, ?_⟩
  · intro hp
    have hlt : ¬ p < 0 := not_lt.mpr hp
    unfold updateFeedPositionEndpoint updateFeedPosition
    rw [if_neg hlt, hf]
  · intro hp
    unfold updateFeedPositionEndpoint
    rw [if_pos hp]
  · intro hp
    have hlt : ¬ p < 0 := not_lt.mpr hp
    unfold updateMyFeedEndpoint
    show (if p < 0 then
        Except.error (ApiErr.badRequest
          "Current position must be a non-negative integer")
      else updateFeed db u none (some p) u false) = _
    rw [if_neg hlt]
    unfold updateFeed
    rw [if_neg (by simp : ¬ ((u != u && !false) = true)), hf]
    rfl
  · intro hp
    unfold updateMyFeedEndpoint
    show (if p < 0 then
        Except.error (ApiErr.badRequest
          "Current position must be a non-negative integer")
      else updateFeed db u none (some p) u false) = _
    rw [if_pos hp]

/-- Witness for C4 (amended): position 5 on the 3-element demo feed is
accepted and stored. -/
theorem position_no_upper_bound_witness :
    updateFeedPositionEndpoint demoFeedDB "u" 5 =
      .ok ({ demoFeedDB with
              feeds := demoFeedDB.feeds.map (fun g =>
                if g.userId = "u" then { g with currentPosition := 5 }
                else g) },
           { userId := "u", articleIds := ["a1", "a2", "a3"],
             currentPosition := 5 }) :=
  (position_no_upper_bound demoFeedDB "u" 5
    ⟨"u", ["a1", "a2", "a3"], 1⟩ (by decide)).1 (by decide)

/-- C5: the Wikipedia upsert is idempotent.  Starting from a store with no
article for the external identity, the first call creates
(`created = true`); the second call with the same input finds the row,
returns it unchanged with `created = false`, leaves the store untouched,
and exactly one article matching the external identity exists. -/
theorem upsert_idempotent (db : DB) (d : WikipediaArticle)
    (hmiss : db.articles.find? (wikiMatch d) = none) :
    (upsertFromWikipedia db d).2.created = true ∧
    (upsertFromWikipedia (upsertFromWikipedia db d).1 d).2.created = false ∧
    (upsertFromWikipedia (upsertFromWikipedia db d).1 d).1 =
      (upsertFromWikipedia db d).1 ∧
    (upsertFromWikipedia (upsertFromWikipedia db d).1 d).2.article =
      (upsertFromWikipedia db d).2.article ∧
    (upsertFromWikipedia db d).1.articles.countP (wikiMatch d) = 1 := by
  have h1 := upsert_miss db d hmiss
  have hfind2 : (db.articles ++ [freshWikiArticle db.nextId d]).find?
      (wikiMatch d) = some (freshWikiArticle db.nextId d) := by
    rw [List.find?_append, hmiss]
    simp [wikiMatch_fresh]
  have h2 : upsertFromWikipedia (upsertFromWikipedia db d).1 d =
      ((upsertFromWikipedia db d).1,
       { article := freshWikiArticle db.nextId d, created := false }) := by
    rw [h1]
    exact upsert_found _ d (freshWikiArticle db.nextId d) hfind2
  have hcount : (db.articles ++ [freshWikiArticle db.nextId d]).countP
      (wikiMatch d) = 1 := by
    rw [List.countP_append]
    rw [List.countP_eq_zero.mpr (List.find?_eq_none.mp hmiss)]
    simp [List.countP_cons, wikiMatch_fresh]
  refine ⟨?_, ?_, ?_, ?_, ?_⟩
  · rw [h1]
  · rw [h2]
  · rw [h2]
  · rw [h2, h1]
  · rw [h1]
    exact hcount

/-- Witness for C5 at the demo store and demo Wikipedia input. -/
theorem upsert_idempotent_witness :
    (upsertFromWikipedia demoDB demoWikiInput).2.created = true ∧
    (upsertFromWikipedia (upsertFromWikipedia demoDB demoWikiInput).1
        demoWikiInput).2.created = false ∧
    (upsertFromWikipedia demoDB demoWikiInput).1.articles.countP
      (wikiMatch demoWikiInput) = 1 := by
  have h := upsert_idempotent demoDB demoWikiInput (by decide)
  exact ⟨h.1, h.2.1, h.2.2.2.2⟩

/-- C6 counterexample: a concrete schedule of two `regenerateAudio` runs
for the same item in one window makes two calls to the speech-synthesis
collaborator, not exactly one as the claim states. -/
theorem regenerateAudio_single_flight_cex :
    Interleaving (regenerateAudioActions "a1" none)
      (regenerateAudioActions "a1" none) twoRunsBackToBack ∧
    ttsCalls "a1" twoRunsBackToBack = 2 ∧
    ttsCalls "a1" twoRunsBackToBack ≠ 1 := by
  refine ⟨?_, by decide, by decide⟩
  exact .left (.left (.right (.right .nil)))

/-- C6 (amended): `regenerateAudio` has no single-flight guard — under any
interleaving of two concurrent runs for the same item, the
speech-synthesis collaborator is called exactly twice (once per run); each
run does delete the previously observed audio object before synthesizing,
when one exists. -/
theorem regenerateAudio_not_single_flight (a : String)
    (o1 o2 : Option String) (zs : List AudioAction)
    (h : Interleaving (regenerateAudioActions a o1)
      (regenerateAudioActions a o2) zs) :
    ttsCalls a zs = 2 ∧
    (∀ url, o1 = some url →
      regenerateAudioActions a o1 =
        AudioAction.deleteAudio url ::
          [AudioAction.synthesize a, AudioAction.persistAudio a]) := by
  constructor
  · rw [interleaving_ttsCalls a _ _ zs h, ttsCalls_one_run, ttsCalls_one_run]
  · intro url h1
    subst h1
    rfl

/-- Witness for C6 (amended) at a concrete schedule of two runs, one of
which observed a previous audio object. -/
theorem regenerateAudio_not_single_flight_witness :
    ttsCalls "a1"
      (regenerateAudioActions "a1" (some "old.mp3") ++
        regenerateAudioActions "a1" none) = 2 ∧
    regenerateAudioActions "a1" (some "old.mp3") =
      AudioAction.deleteAudio "old.mp3" ::
        [AudioAction.synthesize "a1", AudioAction.persistAudio "a1"] := by
  have h := regenerateAudio_not_single_flight "a1" (some "old.mp3") none
    (regenerateAudioActions "a1" (some "old.mp3") ++
      regenerateAudioActions "a1" none)
    (.left (.left (.left (.right (.right .nil)))))
  exact ⟨h.1, h.2 "old.mp3" rfl⟩

/-- C8: for a user with an existing feed, `regenerateFeed` replaces the
article list with the given one and resets the cursor to 0
unconditionally, whatever the prior position: both the returned feed and
the stored feed row have `articleIds = ids` and `currentPosition = 0`. -/
theorem regenerate_resets_position (db : DB) (u : String)
    (ids : List String) (f : Feed) (hf : findFeed db u = some f) :
    regenerateFeed db u ids =
      .ok ({ db with
              feeds := db.feeds.map (fun g =>
                if g.userId = u then
                  { g with articleIds := ids, currentPosition := 0 }
                else g) },
           { f with articleIds := ids, currentPosition := 0 }) ∧
    findFeed
      { db with
        feeds := db.feeds.map (fun g =>
          if g.userId = u then
            { g with articleIds := ids, currentPosition := 0 }
          else g) } u =
      some { f with articleIds := ids, currentPosition := 0 } := by
  constructor
  · unfold regenerateFeed
    rw [hf]
  · exact findFeed_map_update db.feeds u f hf
      (fun g => { g with articleIds := ids, currentPosition := 0 })
      (fun g => rfl)

/-- Witness for C8: regenerating the demo feed (cursor at 1) stores the
new list with the cursor reset to 0. -/
theorem regenerate_resets_position_witness :
    regenerateFeed demoFeedDB "u" ["b1", "b2"] =
      .ok ({ demoFeedDB with
              feeds := demoFeedDB.feeds.map (fun g =>
                if g.userId = "u" then
                  { g with articleIds := ["b1", "b2"], currentPosition := 0 }
                else g) },
           { userId := "u", articleIds := ["b1", "b2"],
             currentPosition := 0 }) :=
  (regenerate_resets_position demoFeedDB "u" ["b1", "b2"]
    ⟨"u", ["a1", "a2", "a3"], 1⟩ (by decide)).1

/-- C9 counterexample: creating a feed for a user who already has one
fails with `ForbiddenError` (HTTP 403), not `ConflictError` (HTTP 409) as
the claim states. -/
theorem feed_create_conflict_cex :
    createFeed demoFeedDB "u" [] =
      .error (.forbidden "Feed already exists for this user") ∧
    statusOf (.forbidden "Feed already exists for this user") = 403 ∧
    statusOf (.forbidden "Feed already exists for this user") ≠ 409 := by
  decide

/-- C9 (amended): creating a feed for a user who already has one fails
with `ForbiddenError("Feed already exists for this user")` (HTTP 403),
and the existing feed is unchanged by the rejected call. -/
theorem feed_create_existing_forbidden (db : DB) (u : String)
    (ids : List String) (f : Feed) (hf : findFeed db u = some f) :
    createFeed db u ids =
      .error (.forbidden "Feed already exists for this user") ∧
    statusOf (.forbidden "Feed already exists for this user") = 403 ∧
    feedStateAfterCreate db u ids = db := by
  have h1 : createFeed db u ids =
      .error (.forbidden "Feed already exists for this user") := by
    unfold createFeed
    rw [hf]
  refine ⟨h1, rfl, ?_⟩
  unfold feedStateAfterCreate
  rw [h1]

/-- Witness for C9 (amended) at the demo store with an existing feed. -/
theorem feed_create_existing_forbidden_witness :
    createFeed demoFeedDB "u" [] =
      .error (.forbidden "Feed already exists for this user") ∧
    statusOf (.forbidden "Feed already exists for this user") = 403 ∧
    feedStateAfterCreate demoFeedDB "u" [] = demoFeedDB :=
  feed_create_existing_forbidden demoFeedDB "u" []
    ⟨"u", ["a1", "a2", "a3"], 1⟩ (by decide)

/-- C10: the public liked-articles listing performs no ownership check:
its result is the same for every authenticated caller, it returns the
target user's liked articles whenever that user exists, and it fails with
NotFound exactly when the target user does not exist. -/
theorem public_liked_any_caller (db : DB)
    (caller1 caller2 target : String) (page limit : Nat) :
    getUserLikedArticles caller1 target page limit db =
      getUserLikedArticles caller2 target page limit db ∧
    (db.users.contains target = true →
      getUserLikedArticles caller1 target page limit db =
        .ok (getLikedArticles db target page limit)) ∧
    (db.users.contains target = false →
      getUserLikedArticles caller1 target page limit db =
        .error (.notFound "User not found")) := by
  refine ⟨rfl, ?_, ?_⟩
  · intro h
    unfold getUserLikedArticles getPublicLikedArticles
    rw [if_pos h]
  · intro h
    unfold getUserLikedArticles getPublicLikedArticles
    rw [if_neg (by rw [h]; exact fun hcc => nomatch hcc)]

/-- Witness for C10 at the demo store: two distinct callers get the same
result for target user u, who exists. -/
theorem public_liked_any_caller_witness :
    getUserLikedArticles "alice" "u" 1 20 demoLikedDB =
      getUserLikedArticles "bob" "u" 1 20 demoLikedDB ∧
    (demoLikedDB.users.contains "u" = true →
      getUserLikedArticles "alice" "u" 1 20 demoLikedDB =
        .ok (getLikedArticles demoLikedDB "u" 1 20)) ∧
    (demoLikedDB.users.contains "u" = false →
      getUserLikedArticles "alice" "u" 1 20 demoLikedDB =
        .error (.notFound "User not found")) :=
  public_liked_any_caller demoLikedDB "alice" "bob" "u" 1 20
